import Mathlib

/-!
Shallow embedding of the manual-clustering session subsystem of the `phy`
repository (`phy/cluster/manual/session.py`), together with its collaborators
`Clustering`, `GlobalHistory`, `Selector` and `ClusterMetadata`.  The
orchestrator `Session` is translated from `session.py`; the collaborators are
not part of the provided sources (only their caller `session.py` is), so they
are modelled from the specification, as marked in their doc comments.
-/

abbrev SpikeId := Nat
abbrev ClusterId := Nat

instance {ε α : Type} [DecidableEq ε] [DecidableEq α] : DecidableEq (Except ε α) :=
  fun x y =>
    match x, y with
    | .error a, .error b =>
        if h : a = b then .isTrue (by rw [h])
        else .isFalse fun hh => h (by injection hh)
    | .error _, .ok _ => .isFalse fun hh => Except.noConfusion hh
    | .ok _, .error _ => .isFalse fun hh => Except.noConfusion hh
    | .ok a, .ok b =>
        if h : a = b then .isTrue (by rw [h])
        else .isFalse fun hh => h (by injection hh)

/-- Modelled from the spec: `UpdateDescriptor` (the `up` objects of
`session.py`) describes the effect of one mutation: the set of ClusterIds
removed, the set added, and which added ids become newly selected. -/
structure UpdateDescriptor where
  removed : Finset ClusterId
  added : Finset ClusterId
  selected : Finset ClusterId
deriving DecidableEq

/-- Modelled from the spec: error raised by `Clustering.merge`/`split` on
malformed arguments (degenerate or unknown id/spike sets). -/
inductive ClusterErr
  | invalidOperation
deriving DecidableEq

/-- Modelled from the spec: `Clustering` (module `clustering.py`, absent from
the sources) owns the ClusterAssignment — a total map from spike index to
cluster id, held as the ordered list `spike_clusters` — together with a
monotonically increasing id allocator that never reissues a retired id. -/
structure Clustering where
  spike_clusters : List ClusterId
  next_id : ClusterId
deriving DecidableEq

/-- Set of ClusterIds currently in use: the image of the assignment. -/
def Clustering.cluster_ids (c : Clustering) : Finset ClusterId :=
  c.spike_clusters.toFinset

/-- Modelled from the spec: a fresh `Clustering` built from an initial
assignment; the allocator starts strictly above every id in use. -/
def Clustering.ofAssignment (sc : List ClusterId) : Clustering :=
  { spike_clusters := sc, next_id := sc.foldr max 0 + 1 }

/-- Modelled from the spec: `Clustering.merge` fails with `InvalidOperation`
when given fewer than 2 distinct ids or an id not in use; otherwise it
reassigns every spike of the given clusters to one freshly minted id and
reports the merged-away ids as removed and the new id as added and selected. -/
def Clustering.merge (c : Clustering) (clusters : Finset ClusterId) :
    Except ClusterErr (UpdateDescriptor × Clustering) :=
  if clusters.card < 2 ∨ ¬ clusters ⊆ c.cluster_ids then
    .error .invalidOperation
  else
    let newId := c.next_id
    .ok ({ removed := clusters, added := {newId}, selected := {newId} },
         { spike_clusters :=
             c.spike_clusters.map fun k => if k ∈ clusters then newId else k,
           next_id := newId + 1 })

/-- Modelled from the spec: `Clustering.split` fails with `InvalidOperation`
when the spike set is empty or references unknown spikes; otherwise the given
spikes are peeled off into a freshly minted id, donors that lose all their
spikes are retired, and donors that keep spikes keep their id.  The descriptor
reports every donor as removed and every resulting id as added and selected. -/
def Clustering.split (c : Clustering) (spikes : Finset SpikeId) :
    Except ClusterErr (UpdateDescriptor × Clustering) :=
  if spikes = ∅ ∨ ¬ spikes ⊆ Finset.range c.spike_clusters.length then
    .error .invalidOperation
  else
    let newId := c.next_id
    let sc := (List.range c.spike_clusters.length).map fun i =>
      if i ∈ spikes then newId else c.spike_clusters.getD i 0
    let donors := spikes.image fun i => c.spike_clusters.getD i 0
    .ok ({ removed := donors,
           added := insert newId (donors ∩ sc.toFinset),
           selected := insert newId (donors ∩ sc.toFinset) },
         { spike_clusters := sc, next_id := newId + 1 })

/-- Modelled from the spec: `ClusterMetadata` (module `cluster_info.py`,
absent from the sources) holds per-cluster metadata; here the group label of
each cluster, as an association list. -/
structure ClusterMetadata where
  groups : List (ClusterId × Nat)
deriving DecidableEq

/-- Modelled from the spec: `set_group(clusterIds, group)` relabels the group
of every given cluster and returns an UpdateDescriptor (the spec does not pin
its contents for metadata changes; no cluster ids are removed or added). -/
def ClusterMetadata.set_group (m : ClusterMetadata) (clusters : Finset ClusterId)
    (group : Nat) : UpdateDescriptor × ClusterMetadata :=
  ({ removed := ∅, added := ∅, selected := ∅ },
   { groups := m.groups.map fun p => if p.1 ∈ clusters then (p.1, group) else p })

/-- Modelled from the spec: `GlobalHistory` (module `_history.py`, absent from
the sources) is a two-stack checkpoint log over snapshots of the target's
ClusterAssignment.  The undo stack (head = top) holds post-mutation snapshots
above the initial baseline. -/
structure GlobalHistory where
  undos : List (List ClusterId)
  redos : List (List ClusterId)
deriving DecidableEq

/-- Modelled from the spec: a fresh history holding only the initial baseline
snapshot, with an empty redo stack. -/
def GlobalHistory.init (base : List ClusterId) : GlobalHistory :=
  { undos := [base], redos := [] }

/-- Modelled from the spec: `action(target)` captures the target's current
state and pushes it onto the undo stack, clearing the redo stack. -/
def GlobalHistory.action (h : GlobalHistory) (target : Clustering) : GlobalHistory :=
  { undos := target.spike_clusters :: h.undos, redos := [] }

/-- Net difference between two ClusterAssignments: removed = ids present
before and absent after, added = the reverse; added ids become selected. -/
def diffDescriptor (before after : List ClusterId) : UpdateDescriptor :=
  { removed := before.toFinset \ after.toFinset,
    added := after.toFinset \ before.toFinset,
    selected := after.toFinset \ before.toFinset }

/-- Modelled from the spec: `undo` returns the "nothing to undo" sentinel
(`none`) and changes nothing when the undo stack has at most the baseline
entry; otherwise it pops the top snapshot onto the redo stack, restores the
target to the entry below, and reports the net difference.  The allocator is
not rolled back: a retired id is never reissued. -/
def GlobalHistory.undo (h : GlobalHistory) (target : Clustering) :
    Option UpdateDescriptor × GlobalHistory × Clustering :=
  match h.undos with
  | t :: below :: rest =>
      (some (diffDescriptor t below),
       { undos := below :: rest, redos := t :: h.redos },
       { target with spike_clusters := below })
  | _ => (none, h, target)

/-- Modelled from the spec: `redo` returns the sentinel and changes nothing
when the redo stack is empty; otherwise it pops a redo entry, re-applies it as
the new top of the undo stack, restores the target to it, and reports the net
difference. -/
def GlobalHistory.redo (h : GlobalHistory) (target : Clustering) :
    Option UpdateDescriptor × GlobalHistory × Clustering :=
  match h.redos with
  | r :: rest =>
      (some (diffDescriptor target.spike_clusters r),
       { undos := r :: h.undos, redos := rest },
       { target with spike_clusters := r })
  | [] => (none, h, target)

/-- Modelled from the spec: `Selector` (module `selector.py`, absent from the
sources) deterministically subsamples the spikes of the selected clusters up
to `n_spikes_max`, by a uniform stride over the matching spikes in index
order. -/
structure Selector where
  spike_clusters : List ClusterId
  n_spikes_max : Nat
  selected_clusters : List ClusterId
deriving DecidableEq

/-- Modelled from the spec: the derived `selected_spikes` sequence: all spike
indices assigned to a selected cluster, subsampled with a fixed stride when
they exceed `n_spikes_max`; empty when nothing is selected or nothing
matches. -/
def Selector.selected_spikes (s : Selector) : List SpikeId :=
  let all := (List.range s.spike_clusters.length).filter fun i =>
    s.spike_clusters.getD i 0 ∈ s.selected_clusters
  if all.length ≤ s.n_spikes_max then all
  else
    let stride := (all.length + s.n_spikes_max - 1) / s.n_spikes_max
    (all.zip (List.range all.length)).filterMap fun p =>
      if p.2 % stride = 0 then some p.1 else none

/-- Modelled from the spec: the data-source collaborator (the model loaded by
`open`; `KwikModel`/`BaseModel` are external).  It supplies the initial
ordered spike-to-cluster assignment and a cluster-metadata object. -/
structure Model where
  spike_clusters : List ClusterId
  cluster_metadata : ClusterMetadata
deriving DecidableEq

/-- Opened sub-state of a session: the attributes `on_open` installs
(`session.py` lines 135-144).  They do not exist before the first `open`. -/
structure Opened where
  _global_history : GlobalHistory
  clustering : Clustering
  cluster_metadata : ClusterMetadata
  selector : Selector
deriving DecidableEq

/-- Session state (`session.py` `Session.__init__` plus `on_open`): the model
slot, the opened sub-state (absent until `on_open` runs), and the registered
external observer connections of the event emitter, in registration order
(the `EventEmitter` base lives in `phy/utils/event.py`, absent from the
sources; observers are modelled abstractly by identifiers). -/
structure Session where
  model : Option Model
  opened : Option Opened
  observers : List Nat
deriving DecidableEq

/-- Freshly constructed session: `model = None`, no opened sub-state, no
external observers registered yet. -/
def Session.init : Session :=
  { model := none, opened := none, observers := [] }

/-- Named notifications emitted by the session (`emit` calls in
`session.py`). -/
inductive Event
  | open_
  | select
  | cluster (up : Option UpdateDescriptor) (add_to_stack : Bool)
deriving DecidableEq

/-- Errors surfaced synchronously by session operations: `attributeError`
models Python's AttributeError on a missing opened attribute,
`invalidOperation` the spec's `InvalidOperation` for malformed
merge/split arguments. -/
inductive SessionErr
  | attributeError
  | invalidOperation
deriving DecidableEq

/-- From `Session.on_open` (`session.py` lines 135-144): rebuild the opened
sub-state from the freshly loaded model — a new `GlobalHistory`, a new
`Clustering` over the model's `spike_clusters`, the model's
`cluster_metadata`, and a new `Selector` with `n_spikes_max = 100`. -/
def Session.on_open (s : Session) : Session :=
  match s.model with
  | none => s
  | some m =>
      { s with opened := some {
            _global_history := GlobalHistory.init m.spike_clusters,
            clustering := Clustering.ofAssignment m.spike_clusters,
            cluster_metadata := m.cluster_metadata,
            selector :=
              { spike_clusters := m.spike_clusters, n_spikes_max := 100,
                selected_clusters := [] } } }

/-- From `Session.open` (`session.py` lines 101-106): install the model and
emit the `open` notification, whose built-in handler `on_open` rebuilds the
sub-state (loading a model from a filename is the external collaborator's
job, so the model is taken directly). -/
def Session.open_ (s : Session) (model : Model) : Session × List Event :=
  (Session.on_open { s with model := some model }, [Event.open_])

/-- From `Session.select` (`session.py` lines 108-110): set the selector's
selected clusters and emit `select`; raises AttributeError when no dataset
has been opened (`self.selector` does not exist). -/
def Session.select (s : Session) (clusters : List ClusterId) :
    Except SessionErr (Session × List Event) :=
  match s.opened with
  | none => .error .attributeError
  | some op =>
      .ok ({ s with opened := some {
              op with selector :=
                { op.selector with selected_clusters := clusters } } },
           [Event.select])

/-- From `Session.merge` (`session.py` lines 112-114): apply
`clustering.merge`, then emit `cluster` with the descriptor; the built-in
`on_cluster` handler (lines 155-159) records `action(self.clustering)` since
`add_to_stack` defaults to true. -/
def Session.merge (s : Session) (clusters : Finset ClusterId) :
    Except SessionErr (Session × List Event) :=
  match s.opened with
  | none => .error .attributeError
  | some op =>
      match op.clustering.merge clusters with
      | .error _ => .error .invalidOperation
      | .ok (up, c) =>
          .ok ({ s with opened := some {
                  op with clustering := c,
                          _global_history := op._global_history.action c } },
               [Event.cluster (some up) true])

/-- From `Session.split` (`session.py` lines 116-118): apply
`clustering.split`, then emit `cluster`; `on_cluster` records the
post-mutation clustering. -/
def Session.split (s : Session) (spikes : Finset SpikeId) :
    Except SessionErr (Session × List Event) :=
  match s.opened with
  | none => .error .attributeError
  | some op =>
      match op.clustering.split spikes with
      | .error _ => .error .invalidOperation
      | .ok (up, c) =>
          .ok ({ s with opened := some {
                  op with clustering := c,
                          _global_history := op._global_history.action c } },
               [Event.cluster (some up) true])

/-- From `Session.move` (`session.py` lines 120-122): apply
`cluster_metadata.set_group`, then emit `cluster`; `on_cluster` records
`action(self.clustering)` — the clustering, which `move` did not change; the
metadata recording is a commented-out TODO in the source. -/
def Session.move (s : Session) (clusters : Finset ClusterId) (group : Nat) :
    Except SessionErr (Session × List Event) :=
  match s.opened with
  | none => .error .attributeError
  | some op =>
      let r := op.cluster_metadata.set_group clusters group
      .ok ({ s with opened := some {
              op with cluster_metadata := r.2,
                      _global_history := op._global_history.action op.clustering } },
           [Event.cluster (some r.1) true])

/-- From `Session.undo` (`session.py` lines 124-126): replay the history's
undo on the clustering and emit `cluster` with `add_to_stack=False`, so
`on_cluster` records nothing. -/
def Session.undo (s : Session) : Except SessionErr (Session × List Event) :=
  match s.opened with
  | none => .error .attributeError
  | some op =>
      let r := op._global_history.undo op.clustering
      .ok ({ s with opened := some {
              op with _global_history := r.2.1, clustering := r.2.2 } },
           [Event.cluster r.1 false])

/-- From `Session.redo` (`session.py` lines 128-130): replay the history's
redo on the clustering and emit `cluster` with `add_to_stack=False`. -/
def Session.redo (s : Session) : Except SessionErr (Session × List Event) :=
  match s.opened with
  | none => .error .attributeError
  | some op =>
      let r := op._global_history.redo op.clustering
      .ok ({ s with opened := some {
              op with _global_history := r.2.1, clustering := r.2.2 } },
           [Event.cluster r.1 false])

/-- From `EventEmitter.connect` (modelled from the spec: observers register
for named notifications and are notified in registration order). -/
def Session.connect (s : Session) (o : Nat) : Session :=
  { s with observers := s.observers ++ [o] }

/-- Modelled from the spec: synchronous delivery of one notification to every
currently registered observer, in registration order. -/
def Session.emit_to (s : Session) (e : Event) : List (Nat × Event) :=
  s.observers.map fun o => (o, e)

/-- From `Session.show_waveforms` (`session.py` lines 164-207): creates a
view and registers three observer callbacks (`on_open`, `on_cluster`,
`on_select`) on the session's event emitter; they stay connected until the
view is closed. -/
def Session.show_waveforms (s : Session) (o1 o2 o3 : Nat) : Session :=
  ((s.connect o1).connect o2).connect o3

/-- Reading `self.selector.selected_spikes`, as the `on_select` view callback
does; AttributeError when no dataset has been opened. -/
def Session.selected_spikes (s : Session) : Except SessionErr (List SpikeId) :=
  match s.opened with
  | none => .error .attributeError
  | some op => .ok op.selector.selected_spikes

/-- User-visible mutations of an opened session, for statements quantifying
over merge, split and move uniformly. -/
inductive Mutation
  | merge (clusters : Finset ClusterId)
  | split (spikes : Finset SpikeId)
  | move (clusters : Finset ClusterId) (group : Nat)

/-- Dispatch one mutation to the corresponding session operation. -/
def Session.applyMutation (s : Session) : Mutation → Except SessionErr (Session × List Event)
  | .merge c => s.merge c
  | .split sp => s.split sp
  | .move c g => s.move c g

/-- Concrete dataset used to instantiate theorems on closed inputs: spikes
0,1 in cluster 1 and spikes 2,3 in cluster 2, both clusters in group 0. -/
def demoModel : Model :=
  { spike_clusters := [1, 1, 2, 2],
    cluster_metadata := { groups := [(1, 0), (2, 0)] } }

/-- Concrete session obtained by opening `demoModel` on a fresh session. -/
def demoSession : Session := (Session.init.open_ demoModel).1

/-- The opened sub-state of `demoSession`, spelled out. -/
def demoOpened : Opened :=
  { _global_history := { undos := [[1, 1, 2, 2]], redos := [] },
    clustering := { spike_clusters := [1, 1, 2, 2], next_id := 3 },
    cluster_metadata := { groups := [(1, 0), (2, 0)] },
    selector :=
      { spike_clusters := [1, 1, 2, 2], n_spikes_max := 100,
        selected_clusters := [] } }

/-- Opened sub-state of the demo session after `merge {1, 2}`: all spikes in
the fresh id 3, the post-merge snapshot pushed on the history. -/
def demoAfterMergeOpened : Opened :=
  { _global_history := { undos := [[3, 3, 3, 3], [1, 1, 2, 2]], redos := [] },
    clustering := { spike_clusters := [3, 3, 3, 3], next_id := 4 },
    cluster_metadata := { groups := [(1, 0), (2, 0)] },
    selector :=
      { spike_clusters := [1, 1, 2, 2], n_spikes_max := 100,
        selected_clusters := [] } }

/-- The demo session after `merge {1, 2}`. -/
def demoAfterMerge : Session :=
  { model := some demoModel, opened := some demoAfterMergeOpened,
    observers := [] }

/-- Opened sub-state of the demo session after `merge {1, 2}` then `undo`. -/
def demoAfterMergeUndoOpened : Opened :=
  { _global_history := { undos := [[1, 1, 2, 2]], redos := [[3, 3, 3, 3]] },
    clustering := { spike_clusters := [1, 1, 2, 2], next_id := 4 },
    cluster_metadata := { groups := [(1, 0), (2, 0)] },
    selector :=
      { spike_clusters := [1, 1, 2, 2], n_spikes_max := 100,
        selected_clusters := [] } }

/-- The demo session after `merge {1, 2}` then `undo`. -/
def demoAfterMergeUndo : Session :=
  { model := some demoModel, opened := some demoAfterMergeUndoOpened,
    observers := [] }

/-- Descriptor produced by `merge {1, 2}` on the demo session. -/
def demoMergeUp : UpdateDescriptor :=
  { removed := {1, 2}, added := {3}, selected := {3} }

/-- Opened sub-state of the demo session after `move {1} 3`: the group of
cluster 1 changed to 3, the clustering untouched, and the history holding a
second copy of the unchanged clustering snapshot. -/
def demoAfterMoveOpened : Opened :=
  { _global_history := { undos := [[1, 1, 2, 2], [1, 1, 2, 2]], redos := [] },
    clustering := { spike_clusters := [1, 1, 2, 2], next_id := 3 },
    cluster_metadata := { groups := [(1, 3), (2, 0)] },
    selector :=
      { spike_clusters := [1, 1, 2, 2], n_spikes_max := 100,
        selected_clusters := [] } }

/-- The demo session after `move {1} 3`. -/
def demoAfterMove : Session :=
  { model := some demoModel, opened := some demoAfterMoveOpened,
    observers := [] }

/-- Opened sub-state of the demo session after `move {1} 3` then `undo`:
the clustering snapshot is restored (it never changed), but the group of
cluster 1 is still 3. -/
def demoAfterMoveUndoOpened : Opened :=
  { _global_history := { undos := [[1, 1, 2, 2]], redos := [[1, 1, 2, 2]] },
    clustering := { spike_clusters := [1, 1, 2, 2], next_id := 3 },
    cluster_metadata := { groups := [(1, 3), (2, 0)] },
    selector :=
      { spike_clusters := [1, 1, 2, 2], n_spikes_max := 100,
        selected_clusters := [] } }

/-- The demo session after `move {1} 3` then `undo`. -/
def demoAfterMoveUndo : Session :=
  { model := some demoModel, opened := some demoAfterMoveUndoOpened,
    observers := [] }

/-- Iterated `undo`, keeping the state on an error, for stating that repeated
undo past the baseline stays a no-op. -/
def Session.undoTimes : Nat → Session → Session
  | 0, s => s
  | n + 1, s =>
      match s.undo with
      | .ok (s', _) => Session.undoTimes n s'
      | .error _ => s

/-- Iterated `redo`, keeping the state on an error. -/
def Session.redoTimes : Nat → Session → Session
  | 0, s => s
  | n + 1, s =>
      match s.redo with
      | .ok (s', _) => Session.redoTimes n s'
      | .error _ => s

/-- C9: on a session never opened, `select`, `merge`, `split`, `move`,
`undo`, `redo` (and reading `selected_spikes`) all fail with AttributeError
before any state change or notification: the error return carries no
successor state and an empty event trace, so no `cluster` or `select` event
is ever emitted from the Unopened state. -/
theorem unopened_session_operations_error (s : Session) (h : s.opened = none)
    (clusters : List ClusterId) (cs sp : Finset Nat) (g : Nat) :
    s.select clusters = .error .attributeError ∧
    s.merge cs = .error .attributeError ∧
    s.split sp = .error .attributeError ∧
    s.move cs g = .error .attributeError ∧
    s.undo = .error .attributeError ∧
    s.redo = .error .attributeError ∧
    s.selected_spikes = .error .attributeError := by
  refine ⟨?_, ?_, ?_, ?_, ?_, ?_, ?_⟩ <;>
    simp [Session.select, Session.merge, Session.split, Session.move,
      Session.undo, Session.redo, Session.selected_spikes, h]

/-- Witness for C9: the freshly constructed session is unopened and every
operation errors on it. -/
theorem unopened_session_operations_error_witness :
    Session.init.opened = none ∧
    Session.init.select [1] = .error .attributeError ∧
    Session.init.merge {1, 2} = .error .attributeError ∧
    Session.init.split {0} = .error .attributeError ∧
    Session.init.move {1} 0 = .error .attributeError ∧
    Session.init.undo = .error .attributeError ∧
    Session.init.redo = .error .attributeError ∧
    Session.init.selected_spikes = .error .attributeError := by
  have h := unopened_session_operations_error Session.init rfl [1] {1, 2} {0} 0
  exact ⟨rfl, h.1, h.2.1,
    (unopened_session_operations_error Session.init rfl [1] {1, 2} {0} 0).2.2.1,
    h.2.2.2.1, h.2.2.2.2.1, h.2.2.2.2.2.1, h.2.2.2.2.2.2⟩

/-- C6: `open` installs the new model and rebuilds the whole opened
sub-state from it alone — a fresh `Clustering` and `Selector` over the new
model's assignment, the new model's metadata, and a `GlobalHistory` reset to
just the initial baseline — replacing (not mutating) whatever sub-state a
previously opened dataset had: the result does not depend on `s.model` or
`s.opened`.  On the reopened session `undo` and `redo` are immediate
sentinels, i.e. the history is empty of undoable entries. -/
theorem open_rebuilds_substate (s : Session) (m : Model) :
    s.open_ m =
      ({ model := some m,
         opened := some
           { _global_history := GlobalHistory.init m.spike_clusters,
             clustering := Clustering.ofAssignment m.spike_clusters,
             cluster_metadata := m.cluster_metadata,
             selector :=
               { spike_clusters := m.spike_clusters, n_spikes_max := 100,
                 selected_clusters := [] } },
         observers := s.observers }, [Event.open_]) ∧
    (s.open_ m).1.undo = .ok ((s.open_ m).1, [Event.cluster none false]) ∧
    (s.open_ m).1.redo = .ok ((s.open_ m).1, [Event.cluster none false]) := by
  refine ⟨rfl, ?_, ?_⟩ <;>
    simp [Session.open_, Session.on_open, Session.undo, Session.redo,
      GlobalHistory.undo, GlobalHistory.redo, GlobalHistory.init]

/-- C10: re-invoking `open` replaces the data sub-state but does not touch
the observer registry: every observer previously registered — including the
three view callbacks registered by `show_waveforms` — is still connected
afterwards, and the `open` notification is delivered to exactly the
registered observers in registration order. -/
theorem open_preserves_observer_connections (s : Session) (o1 o2 o3 : Nat)
    (m m' : Model) :
    ((s.open_ m).1.open_ m').1.observers = (s.open_ m).1.observers ∧
    (((s.open_ m).1.show_waveforms o1 o2 o3).open_ m').1.observers =
      (s.open_ m).1.observers ++ [o1, o2, o3] ∧
    (((s.open_ m).1.show_waveforms o1 o2 o3).open_ m').1.emit_to Event.open_ =
      ((s.open_ m).1.observers ++ [o1, o2, o3]).map fun o => (o, Event.open_) := by
  refine ⟨rfl, ?_, ?_⟩ <;>
    simp [Session.open_, Session.on_open, Session.show_waveforms,
      Session.connect, Session.emit_to]

/-- C7: on an opened session, `undo` with at most the baseline entry and
`redo` with an empty redo stack are silent no-ops: no error, the sentinel
(`up = none`) is emitted, and the session — cluster assignment and both
history stacks included — is returned unchanged; repeating them any number
of times changes nothing either. -/
theorem undo_redo_past_ends_noop (s : Session) (op : Opened)
    (hop : s.opened = some op) :
    (op._global_history.undos.length ≤ 1 →
      s.undo = .ok (s, [Event.cluster none false]) ∧
      ∀ n, Session.undoTimes n s = s) ∧
    (op._global_history.redos = [] →
      s.redo = .ok (s, [Event.cluster none false]) ∧
      ∀ n, Session.redoTimes n s = s) := by
  have hs : ({ s with opened := some op } : Session) = s := by
    rw [← hop]
  constructor
  · intro hlen
    have hu : GlobalHistory.undo op._global_history op.clustering =
        (none, op._global_history, op.clustering) := by
      rcases hl : op._global_history.undos with _ | ⟨t, _ | ⟨b, rest⟩⟩
      · rw [GlobalHistory.undo, hl]
      · rw [GlobalHistory.undo, hl]
      · rw [hl] at hlen
        simp at hlen
    have hstep : s.undo = .ok (s, [Event.cluster none false]) := by
      simp only [Session.undo, hop, hu]
      exact congrArg (fun t => Except.ok (t, [Event.cluster none false])) hs
    refine ⟨hstep, ?_⟩
    intro n
    induction n with
    | zero => rfl
    | succ k ih => rw [Session.undoTimes, hstep]; exact ih
  · intro hred
    have hr : GlobalHistory.redo op._global_history op.clustering =
        (none, op._global_history, op.clustering) := by
      rw [GlobalHistory.redo, hred]
    have hstep : s.redo = .ok (s, [Event.cluster none false]) := by
      simp only [Session.redo, hop, hr]
      exact congrArg (fun t => Except.ok (t, [Event.cluster none false])) hs
    refine ⟨hstep, ?_⟩
    intro n
    induction n with
    | zero => rfl
    | succ k ih => rw [Session.redoTimes, hstep]; exact ih

/-- C4: on an opened session, `merge` with fewer than 2 distinct ids or with
an id not in use, and `split` with an empty spike set or with unknown spike
ids, fail synchronously with `InvalidOperation`; the error result carries no
successor state and no events, so the cluster assignment, `cluster_ids` and
the history are left untouched — apply-or-reject atomicity. -/
theorem invalid_merge_split_rejected (s : Session) (op : Opened)
    (hop : s.opened = some op) (clusters : Finset ClusterId)
    (spikes : Finset SpikeId) :
    (clusters.card < 2 ∨ ¬ clusters ⊆ op.clustering.cluster_ids →
      s.merge clusters = .error .invalidOperation) ∧
    (spikes = ∅ ∨ ¬ spikes ⊆ Finset.range op.clustering.spike_clusters.length →
      s.split spikes = .error .invalidOperation) := by
  constructor
  · intro h
    simp only [Session.merge, hop]
    rw [Clustering.merge, if_pos h]
  · intro h
    simp only [Session.split, hop]
    rw [Clustering.split, if_pos h]

/-- Witness for C4: on the demo session, merging the single cluster `{1}`,
merging with the unknown id `{1, 5}`, splitting the empty spike set, and
splitting the unknown spike `{7}` are all rejected. -/
theorem invalid_merge_split_rejected_witness :
    demoSession.merge {1} = .error .invalidOperation ∧
    demoSession.merge {1, 5} = .error .invalidOperation ∧
    demoSession.split (∅ : Finset SpikeId) = .error .invalidOperation ∧
    demoSession.split {7} = .error .invalidOperation := by
  have h1 := invalid_merge_split_rejected demoSession demoOpened (by decide) {1} ∅
  have h2 := invalid_merge_split_rejected demoSession demoOpened (by decide) {1, 5} {7}
  exact ⟨h1.1 (by decide), h2.1 (by decide), h1.2 (by decide), h2.2 (by decide)⟩

/-- C8: the subsampling rule is a deterministic function of the selected
clusters, the assignment and the cap, so two successive reads of
`selected_spikes` against unchanged state return identical sequences; and
the result is empty when no clusters are selected or when the selected
clusters own no spikes. -/
theorem selected_spikes_deterministic_and_empty (s1 s2 : Selector)
    (s : Session) (op : Opened) (hop : s.opened = some op) :
    (s1.selected_clusters = s2.selected_clusters →
      s1.spike_clusters = s2.spike_clusters →
      s1.n_spikes_max = s2.n_spikes_max →
      s1.selected_spikes = s2.selected_spikes) ∧
    (op.selector.selected_clusters = [] → s.selected_spikes = .ok []) ∧
    ((∀ c ∈ op.selector.selected_clusters, c ∉ op.selector.spike_clusters) →
      s.selected_spikes = .ok []) := by
  refine ⟨?_, ?_, ?_⟩
  · obtain ⟨a1, b1, c1⟩ := s1
    obtain ⟨a2, b2, c2⟩ := s2
    intro h1 h2 h3
    simp only at h1 h2 h3
    subst h1; subst h2; subst h3
    rfl
  · intro h
    simp [Session.selected_spikes, hop, Selector.selected_spikes, h]
  · intro h
    have hfil : ((List.range op.selector.spike_clusters.length).filter fun i =>
        op.selector.spike_clusters.getD i 0 ∈ op.selector.selected_clusters)
        = [] := by
      rw [List.filter_eq_nil_iff]
      intro i hi
      simp only [List.mem_range] at hi
      simp only [decide_eq_true_eq]
      rw [List.getD_eq_getElem _ _ hi]
      intro hmem
      exact h _ hmem (List.getElem_mem hi)
    simp only [Session.selected_spikes, hop, Selector.selected_spikes]
    rw [hfil]
    simp

/-- Witness for C8: two structurally distinct but extensionally equal concrete
selectors give the same subsample; the demo session right after opening has
an empty selection and reads no spikes, and selecting only the unused id 9
also reads no spikes. -/
theorem selected_spikes_deterministic_and_empty_witness :
    ({ spike_clusters := [1, 1, 2, 2], n_spikes_max := 100,
       selected_clusters := [] } : Selector).selected_spikes =
      demoOpened.selector.selected_spikes ∧
    demoSession.opened = some demoOpened ∧
    demoOpened.selector.selected_clusters = [] ∧
    demoSession.selected_spikes = .ok [] := by
  have h := selected_spikes_deterministic_and_empty
    { spike_clusters := [1, 1, 2, 2], n_spikes_max := 100,
      selected_clusters := [] }
    demoOpened.selector demoSession demoOpened (by decide)
  exact ⟨h.1 (by decide) (by decide) (by decide), by decide, by decide,
    h.2.1 (by decide)⟩

/-- Image of a merge relabelling: with a nonempty set of merged ids all in
use, the ids in use afterwards are the previous ones minus the merged ones,
plus the new id. -/
theorem toFinset_map_merge (l : List Nat) (clusters : Finset Nat) (newId : Nat)
    (hsub : clusters ⊆ l.toFinset) (hne : clusters.Nonempty) :
    (l.map fun k => if k ∈ clusters then newId else k).toFinset =
      (l.toFinset \ clusters) ∪ {newId} := by
  ext x
  simp only [List.mem_toFinset, List.mem_map, Finset.mem_union,
    Finset.mem_sdiff, Finset.mem_singleton]
  constructor
  · rintro ⟨a, ha, rfl⟩
    by_cases h : a ∈ clusters
    · rw [if_pos h]
      exact Or.inr rfl
    · rw [if_neg h]
      exact Or.inl ⟨ha, h⟩
  · rintro (⟨hx, hxc⟩ | rfl)
    · exact ⟨x, hx, by rw [if_neg hxc]⟩
    · obtain ⟨k, hk⟩ := hne
      exact ⟨k, List.mem_toFinset.mp (hsub hk), by rw [if_pos hk]⟩

/-- C1: a valid merge of at least two distinct ids, all in use, on an opened
session succeeds; the post-state mints exactly one fresh id (not previously
in use), the spikes of the new id are exactly the union of the spikes of the
merged clusters while all other spikes keep their id, the merged-away ids are
gone from `cluster_ids`, and the emitted descriptor reports the merged-away
ids as removed and the single new id as added and selected. -/
theorem merge_valid_post_state (s : Session) (op : Opened)
    (clusters : Finset ClusterId) (hop : s.opened = some op)
    (hcard : 2 ≤ clusters.card)
    (hsub : clusters ⊆ op.clustering.cluster_ids)
    (halloc : ∀ k ∈ op.clustering.spike_clusters, k < op.clustering.next_id) :
    ∃ s' op' up,
      s.merge clusters = .ok (s', [Event.cluster (some up) true]) ∧
      s'.opened = some op' ∧
      op.clustering.next_id ∉ op.clustering.cluster_ids ∧
      op'.clustering.cluster_ids =
        (op.clustering.cluster_ids \ clusters) ∪ {op.clustering.next_id} ∧
      (∀ c ∈ clusters, c ∉ op'.clustering.cluster_ids) ∧
      op'.clustering.spike_clusters.length =
        op.clustering.spike_clusters.length ∧
      (∀ i, i < op.clustering.spike_clusters.length →
        (op'.clustering.spike_clusters.getD i 0 = op.clustering.next_id ↔
          op.clustering.spike_clusters.getD i 0 ∈ clusters) ∧
        (op.clustering.spike_clusters.getD i 0 ∉ clusters →
          op'.clustering.spike_clusters.getD i 0 =
            op.clustering.spike_clusters.getD i 0)) ∧
      up.removed = clusters ∧ up.added = {op.clustering.next_id} ∧
      up.selected = {op.clustering.next_id} := by
  have hnot : ¬(clusters.card < 2 ∨ ¬ clusters ⊆ op.clustering.cluster_ids) := by
    push_neg
    exact ⟨hcard, hsub⟩
  have hfresh : op.clustering.next_id ∉ op.clustering.cluster_ids := by
    intro hmem
    rw [Clustering.cluster_ids, List.mem_toFinset] at hmem
    exact absurd (halloc _ hmem) (lt_irrefl _)
  have hne : clusters.Nonempty := Finset.card_pos.mp (by omega)
  set c2 : Clustering :=
    { spike_clusters := op.clustering.spike_clusters.map
        fun k => if k ∈ clusters then op.clustering.next_id else k,
      next_id := op.clustering.next_id + 1 } with hc2
  set up2 : UpdateDescriptor :=
    { removed := clusters, added := {op.clustering.next_id},
      selected := {op.clustering.next_id} } with hup2
  have hmerge : op.clustering.merge clusters = .ok (up2, c2) := by
    rw [Clustering.merge, if_neg hnot]
  have hsc : c2.spike_clusters = op.clustering.spike_clusters.map
      fun k => if k ∈ clusters then op.clustering.next_id else k := by
    rw [hc2]
  have himg : c2.cluster_ids =
      (op.clustering.cluster_ids \ clusters) ∪ {op.clustering.next_id} := by
    rw [Clustering.cluster_ids, hsc, Clustering.cluster_ids]
    exact toFinset_map_merge _ _ _ hsub hne
  set op2 : Opened :=
    { op with clustering := c2,
              _global_history := op._global_history.action c2 } with hop2
  refine ⟨{ s with opened := some op2 }, op2, up2,
    ?_, rfl, hfresh, himg, ?_, ?_, ?_, rfl, rfl, rfl⟩
  · simp only [Session.merge, hop, hmerge]
  · intro c hc hmem
    have hmem2 : c ∈ c2.cluster_ids := hmem
    rw [himg] at hmem2
    rcases Finset.mem_union.mp hmem2 with h | h
    · exact (Finset.mem_sdiff.mp h).2 hc
    · rw [Finset.mem_singleton] at h
      subst h
      exact hfresh (hsub hc)
  · rw [hsc]
    exact List.length_map _ _
  · intro i hi
    have hlen : i < (op.clustering.spike_clusters.map
        fun k => if k ∈ clusters then op.clustering.next_id else k).length := by
      rw [List.length_map]
      exact hi
    have hmap : c2.spike_clusters.getD i 0 =
        if op.clustering.spike_clusters.getD i 0 ∈ clusters then
          op.clustering.next_id
        else op.clustering.spike_clusters.getD i 0 := by
      rw [hsc, List.getD_eq_getElem _ _ hlen, List.getD_eq_getElem _ _ hi,
        List.getElem_map]
    constructor
    · rw [show op2.clustering.spike_clusters.getD i 0 =
          c2.spike_clusters.getD i 0 from rfl, hmap]
      by_cases h : op.clustering.spike_clusters.getD i 0 ∈ clusters
      · rw [if_pos h]
        exact ⟨fun _ => h, fun _ => rfl⟩
      · rw [if_neg h]
        constructor
        · intro heq
          have hmem : op.clustering.spike_clusters.getD i 0 ∈
              op.clustering.spike_clusters := by
            rw [List.getD_eq_getElem _ _ hi]
            exact List.getElem_mem hi
          exact absurd heq (Nat.ne_of_lt (halloc _ hmem))
        · intro hmem
          exact absurd hmem h
    · intro h
      rw [show op2.clustering.spike_clusters.getD i 0 =
          c2.spike_clusters.getD i 0 from rfl, hmap, if_neg h]

/-- Witness for C1: merging clusters 1 and 2 of the demo session, all four
spikes land in the fresh id 3, ids 1 and 2 disappear, and the descriptor is
removed = `{1, 2}`, added = selected = `{3}`. -/
theorem merge_valid_post_state_witness :
    ∃ s' op' up,
      demoSession.merge {1, 2} = .ok (s', [Event.cluster (some up) true]) ∧
      s'.opened = some op' ∧
      demoOpened.clustering.next_id ∉ demoOpened.clustering.cluster_ids ∧
      op'.clustering.cluster_ids =
        (demoOpened.clustering.cluster_ids \ {1, 2}) ∪
          {demoOpened.clustering.next_id} ∧
      (∀ c ∈ ({1, 2} : Finset ClusterId), c ∉ op'.clustering.cluster_ids) ∧
      op'.clustering.spike_clusters.length =
        demoOpened.clustering.spike_clusters.length ∧
      (∀ i, i < demoOpened.clustering.spike_clusters.length →
        (op'.clustering.spike_clusters.getD i 0 =
            demoOpened.clustering.next_id ↔
          demoOpened.clustering.spike_clusters.getD i 0 ∈
            ({1, 2} : Finset ClusterId)) ∧
        (demoOpened.clustering.spike_clusters.getD i 0 ∉
            ({1, 2} : Finset ClusterId) →
          op'.clustering.spike_clusters.getD i 0 =
            demoOpened.clustering.spike_clusters.getD i 0)) ∧
      up.removed = {1, 2} ∧ up.added = {demoOpened.clustering.next_id} ∧
      up.selected = {demoOpened.clustering.next_id} :=
  merge_valid_post_state demoSession demoOpened {1, 2} (by decide) (by decide)
    (by decide) (by decide)

/-- Common shape of a successful mutation: the session keeps its model and
observers, the clustering becomes some `c`, the metadata some `md`, the
history gains exactly the `action c` recording, and a single `cluster` event
with `add_to_stack = true` is emitted. -/
theorem mutation_shape (s : Session) (op : Opened) (mu : Mutation)
    (s' : Session) (ev : List Event)
    (hop : s.opened = some op)
    (happ : s.applyMutation mu = .ok (s', ev)) :
    ∃ c md up, s' = { s with opened := some {
        op with clustering := c, cluster_metadata := md,
                _global_history := op._global_history.action c } } ∧
      ev = [Event.cluster (some up) true] := by
  cases mu with
  | merge clusters =>
      rcases hm : op.clustering.merge clusters with e | ⟨up, c⟩
      · simp only [Session.applyMutation, Session.merge, hop, hm] at happ
        exact Except.noConfusion happ
      · simp only [Session.applyMutation, Session.merge, hop, hm] at happ
        injection happ with h
        injection h with h1 h2
        subst h1
        subst h2
        exact ⟨c, op.cluster_metadata, up, rfl, rfl⟩
  | split spikes =>
      rcases hm : op.clustering.split spikes with e | ⟨up, c⟩
      · simp only [Session.applyMutation, Session.split, hop, hm] at happ
        exact Except.noConfusion happ
      · simp only [Session.applyMutation, Session.split, hop, hm] at happ
        injection happ with h
        injection h with h1 h2
        subst h1
        subst h2
        exact ⟨c, op.cluster_metadata, up, rfl, rfl⟩
  | move clusters g =>
      simp only [Session.applyMutation, Session.move, hop] at happ
      injection happ with h
      injection h with h1 h2
      subst h1
      subst h2
      exact ⟨op.clustering, (op.cluster_metadata.set_group clusters g).2,
        (op.cluster_metadata.set_group clusters g).1, rfl, rfl⟩

/-- C2: after any single successful mutation (merge, split or move) from a
state whose history top snapshot is the current assignment (true in every
reachable state), `undo` succeeds and restores `spike_clusters` and
`cluster_ids` to exact equality with the pre-mutation state, and `redo`
right after that `undo` restores exact equality with the post-mutation
state. -/
theorem undo_redo_roundtrip (s : Session) (op : Opened) (mu : Mutation)
    (s' : Session) (ev : List Event)
    (hop : s.opened = some op)
    (htop : op._global_history.undos.head? = some op.clustering.spike_clusters)
    (happ : s.applyMutation mu = .ok (s', ev)) :
    ∃ s2 ev2 op2 s3 ev3 op3 op1,
      s'.opened = some op1 ∧
      s'.undo = .ok (s2, ev2) ∧
      s2.opened = some op2 ∧
      op2.clustering.spike_clusters = op.clustering.spike_clusters ∧
      op2.clustering.cluster_ids = op.clustering.cluster_ids ∧
      s2.redo = .ok (s3, ev3) ∧
      s3.opened = some op3 ∧
      op3.clustering.spike_clusters = op1.clustering.spike_clusters ∧
      op3.clustering.cluster_ids = op1.clustering.cluster_ids := by
  obtain ⟨c, md, up, hs', hev⟩ := mutation_shape s op mu s' ev hop happ
  obtain ⟨rest, hrest⟩ : ∃ rest, op._global_history.undos =
      op.clustering.spike_clusters :: rest := by
    rcases hu : op._global_history.undos with _ | ⟨a, t⟩
    · rw [hu] at htop
      simp at htop
    · rw [hu] at htop
      simp only [List.head?] at htop
      injection htop with h
      subst h
      exact ⟨t, rfl⟩
  subst hs'
  set op1 : Opened :=
    { op with clustering := c, cluster_metadata := md,
              _global_history := op._global_history.action c } with hop1
  set c2 : Clustering :=
    { spike_clusters := op.clustering.spike_clusters, next_id := c.next_id }
    with hc2
  set h2 : GlobalHistory :=
    { undos := op.clustering.spike_clusters :: rest,
      redos := [c.spike_clusters] } with hh2
  set op2 : Opened :=
    { op1 with clustering := c2, _global_history := h2 } with hop2
  set c3 : Clustering :=
    { spike_clusters := c.spike_clusters, next_id := c.next_id } with hc3
  set h3 : GlobalHistory :=
    { undos := c.spike_clusters :: op.clustering.spike_clusters :: rest,
      redos := [] } with hh3
  set op3 : Opened :=
    { op2 with clustering := c3, _global_history := h3 } with hop3
  have hu1 : GlobalHistory.undo op1._global_history op1.clustering =
      (some (diffDescriptor c.spike_clusters op.clustering.spike_clusters),
       h2, c2) := by
    show GlobalHistory.undo (op._global_history.action c) c = _
    rw [GlobalHistory.action, hrest]
    rfl
  have hsu : Session.undo { s with opened := some op1 } =
      .ok ({ s with opened := some op2 },
        [Event.cluster (some (diffDescriptor c.spike_clusters
          op.clustering.spike_clusters)) false]) := by
    simp only [Session.undo]
    rw [hu1]
  have hr2 : GlobalHistory.redo op2._global_history op2.clustering =
      (some (diffDescriptor op.clustering.spike_clusters c.spike_clusters),
       h3, c3) := rfl
  have hsr : Session.redo { s with opened := some op2 } =
      .ok ({ s with opened := some op3 },
        [Event.cluster (some (diffDescriptor op.clustering.spike_clusters
          c.spike_clusters)) false]) := by
    simp only [Session.redo]
    rw [hr2]
  exact ⟨{ s with opened := some op2 },
    [Event.cluster (some (diffDescriptor c.spike_clusters
      op.clustering.spike_clusters)) false], op2,
    { s with opened := some op3 },
    [Event.cluster (some (diffDescriptor op.clustering.spike_clusters
      c.spike_clusters)) false], op3, op1,
    rfl, hsu, rfl, rfl, rfl, hsr, rfl, rfl, rfl⟩

/-- Witness for C2: merging `{1, 2}` on the demo session, then undoing,
restores `spike_clusters = [1, 1, 2, 2]` and `cluster_ids = {1, 2}`; redoing
restores the post-merge `[3, 3, 3, 3]` and `{3}`. -/
theorem undo_redo_roundtrip_witness :
    ∃ s2 ev2 op2 s3 ev3 op3 op1,
      demoAfterMerge.opened = some op1 ∧
      demoAfterMerge.undo = .ok (s2, ev2) ∧
      s2.opened = some op2 ∧
      op2.clustering.spike_clusters = demoOpened.clustering.spike_clusters ∧
      op2.clustering.cluster_ids = demoOpened.clustering.cluster_ids ∧
      s2.redo = .ok (s3, ev3) ∧
      s3.opened = some op3 ∧
      op3.clustering.spike_clusters = op1.clustering.spike_clusters ∧
      op3.clustering.cluster_ids = op1.clustering.cluster_ids :=
  undo_redo_roundtrip demoSession demoOpened (Mutation.merge {1, 2})
    demoAfterMerge [Event.cluster (some demoMergeUp) true]
    (by decide) (by decide) (by decide)

/-- C3: on an opened session, every successful mutation (merge, split or
move) performs exactly one history recording — the undo stack grows by
exactly the post-mutation snapshot, the redo stack is cleared — and emits
one `cluster` event with `add_to_stack = true`; `undo` and `redo` emit the
same `cluster` event with `add_to_stack = false` and their history and
clustering are exactly the ones `GlobalHistory.undo`/`redo` produce, with no
additional recording. -/
theorem history_recording_discipline (s : Session) (op : Opened)
    (hop : s.opened = some op) :
    (∀ mu s' ev, s.applyMutation mu = .ok (s', ev) →
      ∃ op' up, s'.opened = some op' ∧
        op'._global_history.undos =
          op'.clustering.spike_clusters :: op._global_history.undos ∧
        op'._global_history.redos = [] ∧
        ev = [Event.cluster (some up) true]) ∧
    (∀ s' ev, s.undo = .ok (s', ev) →
      ∃ op', s'.opened = some op' ∧
        op'._global_history = (op._global_history.undo op.clustering).2.1 ∧
        op'.clustering = (op._global_history.undo op.clustering).2.2 ∧
        ev = [Event.cluster (op._global_history.undo op.clustering).1 false]) ∧
    (∀ s' ev, s.redo = .ok (s', ev) →
      ∃ op', s'.opened = some op' ∧
        op'._global_history = (op._global_history.redo op.clustering).2.1 ∧
        op'.clustering = (op._global_history.redo op.clustering).2.2 ∧
        ev = [Event.cluster (op._global_history.redo op.clustering).1 false]) := by
  refine ⟨?_, ?_, ?_⟩
  · intro mu s' ev happ
    obtain ⟨c, md, up, hs', hev⟩ := mutation_shape s op mu s' ev hop happ
    subst hs'
    exact ⟨_, up, rfl, rfl, rfl, hev⟩
  · intro s' ev h
    simp only [Session.undo, hop] at h
    injection h with h1
    injection h1 with h2 h3
    subst h2
    subst h3
    exact ⟨_, rfl, rfl, rfl, rfl⟩
  · intro s' ev h
    simp only [Session.redo, hop] at h
    injection h with h1
    injection h1 with h2 h3
    subst h2
    subst h3
    exact ⟨_, rfl, rfl, rfl, rfl⟩

/-- Witness for C3: on the demo session the merge of `{1, 2}` pushes exactly
the snapshot `[3, 3, 3, 3]` and clears the redo stack; undo on the post-merge
session and redo on the post-undo session replay exactly the history's own
transforms with `add_to_stack = false`. -/
theorem history_recording_discipline_witness :
    (∃ op' up, demoAfterMerge.opened = some op' ∧
      op'._global_history.undos =
        op'.clustering.spike_clusters :: demoOpened._global_history.undos ∧
      op'._global_history.redos = [] ∧
      [Event.cluster (some demoMergeUp) true] =
        [Event.cluster (some up) true]) ∧
    (∃ op', demoAfterMergeUndo.opened = some op' ∧
      op'._global_history =
        (demoAfterMergeOpened._global_history.undo
          demoAfterMergeOpened.clustering).2.1 ∧
      op'.clustering =
        (demoAfterMergeOpened._global_history.undo
          demoAfterMergeOpened.clustering).2.2 ∧
      [Event.cluster (some (diffDescriptor [3, 3, 3, 3] [1, 1, 2, 2])) false] =
        [Event.cluster (demoAfterMergeOpened._global_history.undo
          demoAfterMergeOpened.clustering).1 false]) ∧
    (∃ op', demoAfterMerge.opened = some op' ∧
      op'._global_history =
        (demoAfterMergeUndoOpened._global_history.redo
          demoAfterMergeUndoOpened.clustering).2.1 ∧
      op'.clustering =
        (demoAfterMergeUndoOpened._global_history.redo
          demoAfterMergeUndoOpened.clustering).2.2 ∧
      [Event.cluster (some (diffDescriptor [1, 1, 2, 2] [3, 3, 3, 3])) false] =
        [Event.cluster (demoAfterMergeUndoOpened._global_history.redo
          demoAfterMergeUndoOpened.clustering).1 false]) := by
  refine ⟨?_, ?_, ?_⟩
  · exact (history_recording_discipline demoSession demoOpened (by decide)).1
      (Mutation.merge {1, 2}) demoAfterMerge
      [Event.cluster (some demoMergeUp) true] (by decide)
  · exact (history_recording_discipline demoAfterMerge demoAfterMergeOpened
      (by decide)).2.1 demoAfterMergeUndo
      [Event.cluster (some (diffDescriptor [3, 3, 3, 3] [1, 1, 2, 2])) false]
      (by decide)
  · exact (history_recording_discipline demoAfterMergeUndo
      demoAfterMergeUndoOpened (by decide)).2.2 demoAfterMerge
      [Event.cluster (some (diffDescriptor [1, 1, 2, 2] [3, 3, 3, 3])) false]
      (by decide)

/-- C5, failing input: on the demo session, `move {1} 3` succeeds and emits a
recorded `cluster` event — but the mutation is applied to the metadata, not
to the Clustering (which is unchanged), and `on_cluster` records only the
unchanged clustering snapshot, so the following `undo` leaves the group of
cluster 1 at 3 instead of restoring the pre-move value 0. -/
theorem move_records_clustering_only :
    demoSession.move {1} 3 =
      .ok (demoAfterMove, [Event.cluster
        (some { removed := ∅, added := ∅, selected := ∅ }) true]) ∧
    demoAfterMoveOpened.clustering = demoOpened.clustering ∧
    demoAfterMoveOpened._global_history.undos =
      [demoOpened.clustering.spike_clusters,
       demoOpened.clustering.spike_clusters] ∧
    demoOpened.cluster_metadata.groups = [(1, 0), (2, 0)] ∧
    demoAfterMoveOpened.cluster_metadata.groups = [(1, 3), (2, 0)] ∧
    demoAfterMove.undo = .ok (demoAfterMoveUndo, [Event.cluster
      (some { removed := ∅, added := ∅, selected := ∅ }) false]) ∧
    demoAfterMoveUndoOpened.cluster_metadata.groups = [(1, 3), (2, 0)] := by
  decide

/-- Witness for C7: the freshly opened demo session has only the baseline
undo entry and an empty redo stack, and `undo`/`redo` (three times over) are
no-ops on it. -/
theorem undo_redo_past_ends_noop_witness :
    demoSession.opened = some demoOpened ∧
    demoOpened._global_history.undos.length ≤ 1 ∧
    demoOpened._global_history.redos = [] ∧
    demoSession.undo = .ok (demoSession, [Event.cluster none false]) ∧
    Session.undoTimes 3 demoSession = demoSession ∧
    demoSession.redo = .ok (demoSession, [Event.cluster none false]) ∧
    Session.redoTimes 3 demoSession = demoSession := by
  have h := undo_redo_past_ends_noop demoSession demoOpened (by decide)
  exact ⟨by decide, by decide, by decide,
    (h.1 (by decide)).1, (h.1 (by decide)).2 3,
    (h.2 (by decide)).1, (h.2 (by decide)).2 3⟩
